import Mathlib

set_option maxRecDepth 8000

/-!
Shallow embedding of `src/vs/workbench/services/history/browser/historyService.ts`.

The pure state transitions of the history service are translated into Lean
functions over explicit state values.  External collaborator capabilities
(selection comparison, the lifecycle phase, file-system providers, the
default URI scheme of the path service, the resource exclusion matcher) are
bundled in a `Ctx` record that every translated function receives.
Listener bookkeeping (the `DisposableStore` maps) and context-key updates
are external effects with no bearing on the verified state and are omitted;
the asynchronous `openEditor` replay is represented by the entry it is
handed (`NavStack.replayTarget`).
-/

/-- Resources (`vs/base/common/uri`): a scheme plus a path, the path kept as
segments so that the parent/descendant relation of `extUri` is expressible. -/
structure URI where
  scheme : String
  path : List String
deriving DecidableEq

/-- `IResourceEditorInput` (`vs/platform/editor/common/editor`): the
serializable resource descriptor variant of an editor reference. -/
structure IResourceEditorInput where
  resource : URI
deriving DecidableEq

/-- `EditorInput` (`vs/workbench/common/editor/editorInput`), reduced to the
capabilities the history service consumes: an identity key backing the
`matches` capability, the original resource reported by
`EditorResourceAccessor.getOriginalUri`, the untyped resource projection
returned by `toUntyped()` whenever that projection is a resource editor
input, and the disposal flag. -/
structure EditorInput where
  key : Nat
  resource : Option URI
  untyped : Option IResourceEditorInput
  isDisposed : Bool
deriving DecidableEq

/-- The identity capability `EditorInput.matches`, owned by the editor
collaborator; its base implementation compares the identities of the two
live handles, rendered here as the identity key.  (`matches` is a reserved
token in Lean, hence the name `matchesInput`.) -/
def EditorInput.matchesInput (a b : EditorInput) : Bool :=
  a.key == b.key

/-- An editor reference as stored by the service:
`EditorInput | IResourceEditorInput`. -/
inductive EditorRef where
  | typed (input : EditorInput)
  | res (input : IResourceEditorInput)
deriving DecidableEq

/-- `EditorResourceAccessor.getOriginalUri` on the two reference shapes. -/
def EditorRef.getOriginalUri : EditorRef → Option URI
  | .typed input => input.resource
  | .res input => some input.resource

/-- `IEditorPaneSelection`: an opaque, comparable selection snapshot; the
comparison algorithm itself is the collaborator capability `Ctx.selCompare`. -/
structure IEditorPaneSelection where
  key : Nat
deriving DecidableEq

/-- `EditorPaneSelectionCompareResult` (`vs/workbench/common/editor`); the
spec describes the middle variant as partially different. -/
inductive EditorPaneSelectionCompareResult where
  | IDENTICAL
  | SIMILAR
  | DIFFERENT
deriving DecidableEq

/-- Modelled from the spec: `EditorPaneSelectionChangeReason`, the
classification `USER, NAVIGATION, EDIT, UNKNOWN` of why a selection changed;
the enum itself lives outside `src/`. -/
inductive EditorPaneSelectionChangeReason where
  | USER
  | NAVIGATION
  | EDIT
  | UNKNOWN
deriving DecidableEq

/-- External collaborator capabilities consumed by the history service. -/
structure Ctx where
  /-- `IEditorPaneSelection.compare`: `selCompare a b` renders `a.compare(b)`. -/
  selCompare : IEditorPaneSelection → IEditorPaneSelection → EditorPaneSelectionCompareResult
  /-- whether `lifecycleService.phase >= LifecyclePhase.Restored` holds. -/
  phaseRestored : Bool
  /-- `fileService.hasProvider`. -/
  hasProvider : URI → Bool
  /-- `pathService.defaultUriScheme`. -/
  defaultUriScheme : String
  /-- `resourceExcludeMatcher.value.matches`. -/
  excluded : URI → Bool

/-- Modelled from the spec: the watcher delete batch carried by a
`FileChangesEvent` (`vs/platform/files/common/files`, outside `src/`); only
the deleted resources are consumed by the history service. -/
structure FileChangesEvent where
  deleted : List URI
deriving DecidableEq

/-- Modelled from the spec: `FileChangesEvent.contains(resource, DELETED)`,
the delete-event membership test, which per section 4.1 of the spec matches
a resource exactly (not by prefix). -/
def FileChangesEvent.containsDeleted (event : FileChangesEvent) (resource : URI) : Bool :=
  event.deleted.contains resource

/-- `FileOperationEvent`: the source resource of the operation and the
target resource when the operation is a move. -/
structure FileOperationEvent where
  resource : URI
  target : Option URI
deriving DecidableEq

/-- Modelled from the spec: `uriIdentityService.extUri.isEqual` (outside
`src/`), exact resource equality. -/
def extUriIsEqual (a b : URI) : Bool :=
  a == b

/-- Modelled from the spec: `uriIdentityService.extUri.isEqualOrParent
resource parent` (outside `src/`), the equals-or-is-a-descendant-of test
that lets folder renames cascade to contained files. -/
def extUriIsEqualOrParent (resource parent : URI) : Bool :=
  resource.scheme == parent.scheme && parent.path.isPrefixOf resource.path

/-- The polymorphic first argument accepted by the identity matcher: an
editor reference, a watcher change batch, or a file operation. -/
inductive MatchArg where
  | ref (editor : EditorRef)
  | fileChanges (event : FileChangesEvent)
  | fileOp (event : FileOperationEvent)

/-- JS array read `arr[i]` under a possibly negative index. -/
def listGetInt {α : Type*} (l : List α) (i : Int) : Option α :=
  if i < 0 then none else l[i.toNat]?

/-- JS array write `arr[i] = a` for an index known to be in bounds. -/
def listSetInt {α : Type*} (l : List α) (i : Int) (a : α) : List α :=
  if i < 0 then l else l.set i.toNat a

/-- JS `arr.splice(n, 0, a)`: insert at position `n`, clamped to the
length. -/
def listInsertAt {α : Type*} (l : List α) (n : Nat) (a : α) : List α :=
  l.take n ++ a :: l.drop n

/-- `IEditorWithSelection`: one entry of the navigation stack or the
last-edit-location slot. -/
structure IEditorWithSelection where
  editor : EditorRef
  selection : Option IEditorPaneSelection
deriving DecidableEq

/-- `EditorSelectionState`: the current selection state slot of the
navigation stack. -/
structure EditorSelectionState where
  editor : EditorInput
  selection : Option IEditorPaneSelection
  reason : Option EditorPaneSelectionChangeReason
deriving DecidableEq

/-- `EditorSelectionState.justifiesNewNavigationEntry`. -/
def justifiesNewNavigationEntry (ctx : Ctx) (cur other : EditorSelectionState) : Bool :=
  if other.reason == some EditorPaneSelectionChangeReason.NAVIGATION then
    true
  else if !(cur.editor.matchesInput other.editor) then
    true
  else
    match cur.selection, other.selection with
    | some curSel, some otherSel =>
        ctx.selCompare otherSel curSel == EditorPaneSelectionCompareResult.DIFFERENT
    | _, _ => true

namespace HistoryService

def MAX_EDITOR_NAVIGATION_STACK_ITEMS : Nat := 50

def MAX_RECENTLY_CLOSED_EDITORS : Nat := 20

def MAX_HISTORY_ITEMS : Nat := 200

/-- `matchesFile(resource, arg2)` of the service (source lines 689 to 712). -/
def matchesFile (ctx : Ctx) (resource : URI) (arg2 : MatchArg) : Bool :=
  match arg2 with
  | .fileChanges event => event.containsDeleted resource
  | .fileOp event => extUriIsEqualOrParent resource event.resource
  | .ref (.typed input) =>
      match input.resource with
      | none => false
      | some inputResource =>
          if ctx.phaseRestored && !(ctx.hasProvider inputResource) then
            false
          else
            extUriIsEqual inputResource resource
  | .ref (.res input) => extUriIsEqual input.resource resource

/-- `matches(arg1, inputB)` of the service (source lines 661 to 687);
`matches` is a reserved token in Lean, hence the name `matchesEditor`. -/
def matchesEditor (ctx : Ctx) (arg1 : MatchArg) (inputB : EditorRef) : Bool :=
  match arg1, inputB with
  | .fileChanges _, .typed _ => false
  | .fileChanges event, .res input => event.containsDeleted input.resource
  | .fileOp _, .typed _ => false
  | .fileOp event, .res input => matchesFile ctx input.resource (.fileOp event)
  | .ref (.typed a), .typed b => a.matchesInput b
  | .ref (.typed a), .res input => matchesFile ctx input.resource (.ref (.typed a))
  | .ref (.res ra), .typed b => matchesFile ctx ra.resource (.ref (.typed b))
  | .ref (.res ra), .res rb => extUriIsEqual ra.resource rb.resource

/-- `preferResourceEditorInput` (source lines 580 to 616): store the untyped
resource projection when the resource scheme belongs to the allow-list,
drop bare resource descriptors with other schemes. -/
def preferResourceEditorInput (ctx : Ctx) (editor : EditorRef) : Option EditorRef :=
  let resource := editor.getOriginalUri
  let hasValidResourceEditorInputScheme :=
    match resource with
    | some r =>
        r.scheme == "file" || r.scheme == "vscode-remote" ||
        r.scheme == "vscode-userdata" || r.scheme == ctx.defaultUriScheme
    | none => false
  if hasValidResourceEditorInputScheme then
    match editor with
    | .typed input =>
        match input.untyped with
        | some untypedInput => some (.res untypedInput)
        | none => some editor
    | .res _ => some editor
  else
    match editor with
    | .typed _ => some editor
    | .res _ => none

/-- `shouldReplaceEditorPaneSelection` (source lines 618 to 629). -/
def shouldReplaceEditorPaneSelection (ctx : Ctx) (stackEntry : IEditorWithSelection)
    (newSelection : Option IEditorPaneSelection) : Bool :=
  match stackEntry.selection, newSelection with
  | none, _ => true
  | some _, none => false
  | some s, some n => ctx.selCompare s n == EditorPaneSelectionCompareResult.IDENTICAL

/-- The mutable navigation stack state of the service:
`editorNavigationStack`, `editorNavigationStackIndex` and
`lastEditorNavigationStackIndex` (both indices use the JS sentinel `-1`). -/
structure NavStack where
  stack : List IEditorWithSelection
  index : Int
  lastIndex : Int
deriving DecidableEq

/-- The navigation stack as initialised by the service. -/
def initialNavStack : NavStack :=
  { stack := [], index := -1, lastIndex := -1 }

/-- `setIndex` (source lines 397 to 403). -/
def NavStack.setIndex (nav : NavStack) (value : Int) : NavStack :=
  { nav with lastIndex := nav.index, index := value }

/-- `forward()` cursor movement (source lines 374 to 379); the asynchronous
replay that follows is `NavStack.replayTarget`. -/
def NavStack.forward (nav : NavStack) : NavStack :=
  if (nav.stack.length : Int) > nav.index + 1 then nav.setIndex (nav.index + 1) else nav

/-- `back()` cursor movement (source lines 381 to 386). -/
def NavStack.back (nav : NavStack) : NavStack :=
  if nav.index > 0 then nav.setIndex (nav.index - 1) else nav

/-- `last()` cursor movement (source lines 388 to 395). -/
def NavStack.last (nav : NavStack) : NavStack :=
  if nav.lastIndex == -1 then nav.back else nav.setIndex nav.lastIndex

/-- The entry `navigate()` hands to `doNavigate` (source line 409):
`this.editorNavigationStack[this.editorNavigationStackIndex]`. -/
def NavStack.replayTarget (nav : NavStack) : Option IEditorWithSelection :=
  listGetInt nav.stack nav.index

/-- The `replace` flag computed at the top of
`doAddOrReplaceInEditorNavigationStack` (source lines 515 to 523). -/
def doAddOrReplaceReplaceFlag (ctx : Ctx) (nav : NavStack) (editor : EditorRef)
    (selection : Option IEditorPaneSelection) (forceReplace : Bool) : Bool :=
  match listGetInt nav.stack nav.index with
  | none => false
  | some currentEntry =>
      forceReplace ||
        (matchesEditor ctx (.ref currentEntry.editor) editor &&
          shouldReplaceEditorPaneSelection ctx currentEntry selection)

/-- `doAddOrReplaceInEditorNavigationStack` (source lines 512 to 578); the
removed-entry listener cleanup is an external effect and is omitted. -/
def doAddOrReplaceInEditorNavigationStack (ctx : Ctx) (nav : NavStack) (editor : EditorRef)
    (selection : Option IEditorPaneSelection) (forceReplace : Bool) : NavStack :=
  let replace := doAddOrReplaceReplaceFlag ctx nav editor selection forceReplace
  match preferResourceEditorInput ctx editor with
  | none => nav
  | some stackEditorInput =>
    let entry : IEditorWithSelection := { editor := stackEditorInput, selection := selection }
    if replace then
      { nav with stack := listSetInt nav.stack nav.index entry }
    else
      let truncated :=
        if (nav.stack.length : Int) > nav.index + 1 then
          nav.stack.take (nav.index + 1).toNat
        else
          nav.stack
      let inserted := listInsertAt truncated (nav.index + 1).toNat entry
      if inserted.length > MAX_EDITOR_NAVIGATION_STACK_ITEMS then
        { stack := inserted.drop 1
          index := nav.index
          lastIndex := if nav.lastIndex >= 0 then nav.lastIndex - 1 else nav.lastIndex }
      else
        { stack := inserted, index := nav.index + 1, lastIndex := nav.index }

/-- `removeFromEditorNavigationStack` (source lines 638 to 659): the new
stack, paired with the `removed` result. -/
def removeFromEditorNavigationStack (ctx : Ctx) (arg1 : MatchArg) (nav : NavStack) :
    NavStack × Bool :=
  let kept := nav.stack.filter (fun entry => !(matchesEditor ctx arg1 entry.editor))
  let removed := nav.stack.any (fun entry => matchesEditor ctx arg1 entry.editor)
  ({ stack := kept, index := (kept.length : Int) - 1, lastIndex := -1 }, removed)

/-- The navigation stack together with the `navigatingInEditorStack`
reentrancy flag and the `currentEditorSelectionState` slot. -/
structure NavState where
  nav : NavStack
  navigatingInEditorStack : Bool
  currentEditorSelectionState : Option EditorSelectionState

/-- The initial navigation state of the service. -/
def initialNavState : NavState :=
  { nav := initialNavStack, navigatingInEditorStack := false,
    currentEditorSelectionState := none }

/-- `addToEditorNavigationStack` (source lines 500 to 504). -/
def addToEditorNavigationStack (ctx : Ctx) (s : NavState) (editor : EditorRef)
    (selection : Option IEditorPaneSelection) : NavStack :=
  if s.navigatingInEditorStack then s.nav
  else doAddOrReplaceInEditorNavigationStack ctx s.nav editor selection false

/-- `replaceInEditorNavigationStack` (source lines 506 to 510). -/
def replaceInEditorNavigationStack (ctx : Ctx) (s : NavState) (editor : EditorRef)
    (selection : Option IEditorPaneSelection) : NavStack :=
  if s.navigatingInEditorStack then s.nav
  else doAddOrReplaceInEditorNavigationStack ctx s.nav editor selection true

/-- `handleSelectionAwareEditorEventInEditorNavigationStack` (source lines
470 to 485); `paneSelection` is `editorPane.getSelection()` and `reason` is
`event?.reason`. -/
def handleSelectionAwareEditorEventInEditorNavigationStack (ctx : Ctx) (s : NavState)
    (editor : EditorInput) (paneSelection : Option IEditorPaneSelection)
    (reason : Option EditorPaneSelectionChangeReason) : NavState :=
  let stateCandidate : EditorSelectionState :=
    { editor := editor, selection := paneSelection, reason := reason }
  let nav :=
    match s.currentEditorSelectionState with
    | none => addToEditorNavigationStack ctx s (.typed editor) stateCandidate.selection
    | some current =>
        if justifiesNewNavigationEntry ctx current stateCandidate then
          addToEditorNavigationStack ctx s (.typed editor) stateCandidate.selection
        else
          replaceInEditorNavigationStack ctx s (.typed editor) stateCandidate.selection
  { nav := nav, navigatingInEditorStack := s.navigatingInEditorStack,
    currentEditorSelectionState := some stateCandidate }

/-- `removeFromHistory` (source lines 1093 to 1111): the filtered history,
paired with the `removed` result. -/
def removeFromHistory (ctx : Ctx) (arg1 : MatchArg) (history : List EditorRef) :
    List EditorRef × Bool :=
  (history.filter (fun entry => !(matchesEditor ctx arg1 entry)),
    history.any (fun entry => matchesEditor ctx arg1 entry))

/-- `addToHistory` with the default `insertFirst` (source lines 1011 to
1035); the disposal listener registration is an external effect and is
omitted. -/
def addToHistory (ctx : Ctx) (editor : EditorRef) (history : List EditorRef) :
    List EditorRef :=
  match preferResourceEditorInput ctx editor with
  | none => history
  | some historyInput =>
      let h := historyInput :: history
      if h.length > MAX_HISTORY_ITEMS then h.dropLast else h

/-- `handleEditorEventInHistory` (source lines 998 to 1009); the editor of
an active pane is always a live `EditorInput`, for which `includeInHistory`
holds, so only the disposal guard remains. -/
def handleEditorEventInHistory (ctx : Ctx) (editor : EditorInput)
    (history : List EditorRef) : List EditorRef :=
  if editor.isDisposed then history
  else
    addToHistory ctx (.typed editor)
      (removeFromHistory ctx (.ref (.typed editor)) history).1

/-- `IRecentlyClosedEditor` (source lines 72 to 81), without the
`editorId` discriminator, which no verified claim consumes. -/
structure IRecentlyClosedEditor where
  editor : IResourceEditorInput
  resource : Option URI
  associatedResources : List URI
  index : Nat
  sticky : Bool
deriving DecidableEq

/-- The overall mutable state of the service that `clear()` touches or is
claimed to touch: the navigation stack triple, the global history list, the
recently closed buffer and the last-edit-location slot. -/
structure HistoryServiceState where
  nav : NavStack
  history : List EditorRef
  recentlyClosedEditors : List IRecentlyClosedEditor
  lastEditLocation : Option IEditorWithSelection
deriving DecidableEq

/-- `clear()` (source lines 320 to 340): `clearRecentlyOpened()` resets the
history list, the navigation indices go to `-1`, the navigation stack and
the recently closed buffer are emptied; `lastEditLocation` is not written. -/
def clear (s : HistoryServiceState) : HistoryServiceState :=
  { history := []
    nav := { stack := [], index := -1, lastIndex := -1 }
    recentlyClosedEditors := []
    lastEditLocation := s.lastEditLocation }

/-- `openLastEditLocation()` (source lines 969 to 973): the entry handed to
`doNavigate`, `none` when the call is a no-op. -/
def openLastEditLocationTarget (s : HistoryServiceState) : Option IEditorWithSelection :=
  match s.lastEditLocation with
  | some location => some location
  | none => none

end HistoryService

/-! ### Concrete fixtures shared by witnesses and counterexamples -/

/-- A file resource with the given single path segment. -/
def fileURI (segment : String) : URI :=
  { scheme := "file", path := [segment] }

/-- A resource descriptor reference to `fileURI segment`. -/
def fileRef (segment : String) : EditorRef :=
  .res { resource := fileURI segment }

/-- A concrete collaborator record: selections compare identical exactly
when their keys agree, the workbench has not yet restored, every scheme has
a provider, nothing is excluded. -/
def ctxW : Ctx :=
  { selCompare := fun a b =>
      if a.key == b.key then .IDENTICAL else .DIFFERENT
    phaseRestored := false
    hasProvider := fun _ => true
    defaultUriScheme := "file"
    excluded := fun _ => false }

/-- A navigation entry over `fileRef "a"` with no selection. -/
def entryA : IEditorWithSelection := { editor := fileRef "a", selection := none }

/-- A navigation entry over `fileRef "b"` with no selection. -/
def entryB : IEditorWithSelection := { editor := fileRef "b", selection := none }

/-- A navigation entry over `fileRef "c"` with no selection. -/
def entryC : IEditorWithSelection := { editor := fileRef "c", selection := none }

/-- A two entry navigation stack with the cursor on the tail and no
recorded jump. -/
def navAB : HistoryService.NavStack :=
  { stack := [entryA, entryB], index := 1, lastIndex := -1 }

/-! ### Claim C7 -/

/-- Claim C7 (amended): `clear()` empties the navigation stack with both
cursors at `-1`, empties the global history list and the recently closed
buffer, but leaves the last-edit-location slot untouched, so a subsequent
`openLastEditLocation()` still replays the previously remembered location
(it is a no-op only when the slot was already empty). -/
theorem c7_clear_resets_stacks_but_keeps_last_edit_location
    (s : HistoryService.HistoryServiceState) :
    (HistoryService.clear s).nav = { stack := [], index := -1, lastIndex := -1 } ∧
    (HistoryService.clear s).history = [] ∧
    (HistoryService.clear s).recentlyClosedEditors = [] ∧
    (HistoryService.clear s).lastEditLocation = s.lastEditLocation ∧
    HistoryService.openLastEditLocationTarget (HistoryService.clear s) = s.lastEditLocation := by
  refine ⟨rfl, rfl, rfl, rfl, ?_⟩
  cases h : s.lastEditLocation <;>
    simp [HistoryService.clear, HistoryService.openLastEditLocationTarget, h]

/-- A service state remembering `entryA` as the last edit location. -/
def sampleServiceState : HistoryService.HistoryServiceState :=
  { nav := { stack := [entryA], index := 0, lastIndex := 0 }
    history := [fileRef "a"]
    recentlyClosedEditors := []
    lastEditLocation := some entryA }

/-- Claim C7 counterexample: after `clear()` the last-edit-location slot
still holds an entry and `openLastEditLocation()` is not a no-op, refuting
the claim that `clear()` leaves the slot with no entry. -/
theorem c7_counterexample :
    (HistoryService.clear sampleServiceState).lastEditLocation = some entryA ∧
    HistoryService.openLastEditLocationTarget (HistoryService.clear sampleServiceState) ≠ none := by
  decide

/-! ### Claim C9 -/

/-- Claim C9: removing from the navigation stack, for any removal argument
(delete event, move event, or a disposing editor input), keeps exactly the
entries the identity matcher rejects and always resets the cursor to the
last index of the resulting stack and `lastCursor` to `-1`, also when
nothing matched and the contents are unchanged. -/
theorem c9_remove_from_editor_navigation_stack_resets_cursor
    (ctx : Ctx) (arg1 : MatchArg) (nav : HistoryService.NavStack) :
    (HistoryService.removeFromEditorNavigationStack ctx arg1 nav).1.stack
        = nav.stack.filter (fun entry => !(HistoryService.matchesEditor ctx arg1 entry.editor)) ∧
    (HistoryService.removeFromEditorNavigationStack ctx arg1 nav).1.index
        = ((HistoryService.removeFromEditorNavigationStack ctx arg1 nav).1.stack.length : Int) - 1 ∧
    (HistoryService.removeFromEditorNavigationStack ctx arg1 nav).1.lastIndex = -1 :=
  ⟨rfl, rfl, rfl⟩

/-! ### Claim C10 -/

/-- Claim C10: when no previous jump is recorded (`lastCursor = -1`),
`last()` behaves exactly like `back()`: the cursor moves one entry back when
it is greater than zero and the call is a no-op otherwise, rather than
navigating to `lastCursor`. -/
theorem c10_last_without_recorded_jump_is_back
    (nav : HistoryService.NavStack) (h : nav.lastIndex = -1) :
    nav.last = nav.back ∧
    (0 < nav.index →
      nav.last = { nav with index := nav.index - 1, lastIndex := nav.index }) ∧
    (¬ 0 < nav.index → nav.last = nav) := by
  have hb : nav.last = nav.back := by
    simp [HistoryService.NavStack.last, h]
  refine ⟨hb, ?_, ?_⟩
  · intro hi
    rw [hb]
    simp [HistoryService.NavStack.back, HistoryService.NavStack.setIndex, hi]
  · intro hi
    rw [hb]
    simp [HistoryService.NavStack.back, hi]

/-- Witness for claim C10 at the concrete stack `navAB`. -/
theorem c10_last_without_recorded_jump_is_back_witness :
    navAB.last = navAB.back ∧ navAB.last = { navAB with index := 0, lastIndex := 1 } := by
  obtain ⟨h1, h2, -⟩ := c10_last_without_recorded_jump_is_back navAB (by decide)
  refine ⟨h1, ?_⟩
  rw [h2 (by decide)]
  decide

/-! ### Claim C8 -/

/-- Claim C8: from any cursor `i > 0`, `back()` followed by `forward()`
leaves the stack contents unchanged and the cursor back at `i`, so the
entry replayed by `forward()` is the exact entry, selection snapshot
included, that was current before `back()`. -/
theorem c8_back_then_forward_restores_entry
    (nav : HistoryService.NavStack) (i : Int)
    (hidx : nav.index = i) (hpos : 0 < i) (hlen : i < (nav.stack.length : Int)) :
    nav.back.forward.stack = nav.stack ∧
    nav.back.forward.index = i ∧
    nav.back.forward.replayTarget = nav.replayTarget ∧
    nav.back.forward.replayTarget = nav.stack[i.toNat]? := by
  subst hidx
  have hb : nav.back = { stack := nav.stack, index := nav.index - 1, lastIndex := nav.index } := by
    unfold HistoryService.NavStack.back HistoryService.NavStack.setIndex
    rw [if_pos (by omega)]
  have hcancel : nav.index - 1 + 1 = nav.index := by omega
  have hf : nav.back.forward
      = { stack := nav.stack, index := nav.index, lastIndex := nav.index - 1 } := by
    rw [hb]
    unfold HistoryService.NavStack.forward HistoryService.NavStack.setIndex
    dsimp only
    rw [if_pos (by omega)]
    rw [hcancel]
  refine ⟨by rw [hf], by rw [hf], by rw [hf]; rfl, ?_⟩
  rw [hf]
  show listGetInt nav.stack nav.index = _
  unfold listGetInt
  rw [if_neg (by omega)]

/-- A two entry stack whose entries carry selection snapshots. -/
def navSel : HistoryService.NavStack :=
  { stack := [{ editor := fileRef "a", selection := some { key := 1 } },
              { editor := fileRef "b", selection := some { key := 2 } }]
    index := 1
    lastIndex := -1 }

/-- Witness for claim C8 at the concrete stack `navSel`. -/
theorem c8_back_then_forward_restores_entry_witness :
    navSel.back.forward.stack = navSel.stack ∧
    navSel.back.forward.index = 1 ∧
    navSel.back.forward.replayTarget = navSel.replayTarget ∧
    navSel.back.forward.replayTarget = navSel.stack[(1 : Int).toNat]? :=
  c8_back_then_forward_restores_entry navSel 1 (by decide) (by decide) (by decide)

/-! ### Claim C3 -/

/-- Claim C3: a delete event matches an editor reference exactly when the
reference is a resource descriptor whose resource equals one of the deleted
resources exactly; a descriptor whose resource is a strict descendant of a
deleted resource does not match, and a live handle never matches. -/
theorem c3_delete_event_matches_descriptors_exactly :
    (∀ (ctx : Ctx) (event : FileChangesEvent) (b : EditorRef),
      HistoryService.matchesEditor ctx (.fileChanges event) b = true ↔
        ∃ input : IResourceEditorInput,
          b = .res input ∧ input.resource ∈ event.deleted) ∧
    (∀ (ctx : Ctx) (deletedResource child : URI),
      extUriIsEqualOrParent child deletedResource = true → child ≠ deletedResource →
      HistoryService.matchesEditor ctx
        (.fileChanges { deleted := [deletedResource] })
        (.res { resource := child }) = false) := by
  constructor
  · intro ctx event b
    cases b with
    | typed input => simp [HistoryService.matchesEditor]
    | res input =>
        simp [HistoryService.matchesEditor, FileChangesEvent.containsDeleted,
          List.contains]
  · intro ctx deletedResource child _hpar hne
    simp [HistoryService.matchesEditor, FileChangesEvent.containsDeleted,
      List.contains, hne]

/-- Witness for claim C3: the descriptor of the strict descendant
`file:a/b` does not match the deletion of `file:a`, although the
parent relation holds. -/
theorem c3_delete_event_matches_descriptors_exactly_witness :
    HistoryService.matchesEditor ctxW
      (.fileChanges { deleted := [fileURI "a"] })
      (.res { resource := { scheme := "file", path := ["a", "b"] } }) = false :=
  c3_delete_event_matches_descriptors_exactly.2 ctxW (fileURI "a")
    { scheme := "file", path := ["a", "b"] } (by decide) (by decide)

/-! ### Claim C1 -/

/-- `listInsertAt` always grows the list by exactly one entry. -/
theorem listInsertAt_length {α : Type*} (l : List α) (n : Nat) (a : α) :
    (listInsertAt l n a).length = l.length + 1 := by
  simp [listInsertAt]
  omega

/-- `listSetInt` keeps the length. -/
theorem listSetInt_length {α : Type*} (l : List α) (i : Int) (a : α) :
    (listSetInt l i a).length = l.length := by
  unfold listSetInt
  split <;> simp


/-- Claim C1 (amended): a push or replace on the navigation stack keeps the
50 entry bound from any state within the bound; and from a state of exactly
50 entries whose cursor is at the last index 49, a qualifying push evicts
the entry at index 0 and appends the new entry, the cursor stays at the
still valid last index 49, and `lastCursor` is decremented exactly when it
was a valid index (at least 0). -/
theorem c1_nav_stack_bound_and_eviction_at_tail :
    (∀ (ctx : Ctx) (nav : HistoryService.NavStack) (editor : EditorRef)
        (selection : Option IEditorPaneSelection) (forceReplace : Bool),
      nav.stack.length ≤ 50 →
      (HistoryService.doAddOrReplaceInEditorNavigationStack ctx nav editor selection
          forceReplace).stack.length ≤ 50) ∧
    (∀ (ctx : Ctx) (nav : HistoryService.NavStack) (editor : EditorRef)
        (selection : Option IEditorPaneSelection) (stackEditorInput : EditorRef),
      nav.stack.length = 50 → nav.index = 49 →
      HistoryService.doAddOrReplaceReplaceFlag ctx nav editor selection false = false →
      HistoryService.preferResourceEditorInput ctx editor = some stackEditorInput →
      (HistoryService.doAddOrReplaceInEditorNavigationStack ctx nav editor selection false).stack
          = nav.stack.drop 1 ++ [{ editor := stackEditorInput, selection := selection }] ∧
      (HistoryService.doAddOrReplaceInEditorNavigationStack ctx nav editor selection false).index
          = 49 ∧
      (HistoryService.doAddOrReplaceInEditorNavigationStack ctx nav editor selection
          false).stack.length = 50 ∧
      (HistoryService.doAddOrReplaceInEditorNavigationStack ctx nav editor selection false).lastIndex
          = if nav.lastIndex ≥ 0 then nav.lastIndex - 1 else nav.lastIndex) := by
  constructor
  · intro ctx nav editor selection forceReplace hlen
    unfold HistoryService.doAddOrReplaceInEditorNavigationStack
    cases hp : HistoryService.preferResourceEditorInput ctx editor with
    | none => exact hlen
    | some se =>
      simp only [HistoryService.MAX_EDITOR_NAVIGATION_STACK_ITEMS]
      split
      · simp only [listSetInt_length]
        omega
      · split
        · split
          · rename_i hover
            simp only [listInsertAt_length, List.length_take] at hover
            simp only [List.length_drop, listInsertAt_length, List.length_take]
            omega
          · rename_i hover
            simp only [listInsertAt_length, List.length_take] at hover
            simp only [listInsertAt_length, List.length_take]
            omega
        · split
          · rename_i hover
            simp only [listInsertAt_length] at hover
            simp only [List.length_drop, listInsertAt_length]
            omega
          · rename_i hover
            simp only [listInsertAt_length] at hover
            simp only [listInsertAt_length]
            omega
  · intro ctx nav editor selection stackEditorInput h50 h49 hflag hp
    have ht : List.take 50 nav.stack = nav.stack := by
      rw [← h50, List.take_length]
    have hd : List.drop 50 nav.stack = ([] : List IEditorWithSelection) := by
      rw [← h50, List.drop_length]
    have hc1 : ¬ ((nav.stack.length : Int) > nav.index + 1) := by
      rw [h50, h49]
      norm_num
    have hc2 : (nav.index + 1).toNat = 50 := by
      rw [h49]
      decide
    have hres : HistoryService.doAddOrReplaceInEditorNavigationStack ctx nav editor selection false
        = { stack := nav.stack.drop 1 ++ [{ editor := stackEditorInput, selection := selection }]
            index := nav.index
            lastIndex := if nav.lastIndex ≥ 0 then nav.lastIndex - 1 else nav.lastIndex } := by
      unfold HistoryService.doAddOrReplaceInEditorNavigationStack
      rw [hp, hflag]
      simp only [Bool.false_eq_true, if_false, hc1, hc2, listInsertAt, ht, hd]
      rw [if_pos (by
        simp only [List.length_append, List.length_cons, List.length_nil, h50]
        simp [HistoryService.MAX_EDITOR_NAVIGATION_STACK_ITEMS])]
      rw [List.drop_append_of_le_length (by omega)]
    refine ⟨by rw [hres], by rw [hres]; exact h49, ?_, by rw [hres]⟩
    rw [hres]
    simp [h50]

/-- A 50 entry navigation stack over distinct file resources with the
cursor and the recorded jump at the last index 49. -/
def nav50tail : HistoryService.NavStack :=
  { stack := (List.range 50).map (fun k => { editor := fileRef (Nat.repr k), selection := none })
    index := 49
    lastIndex := 49 }

/-- Witness for claim C1 at the concrete full stack `nav50tail`. -/
theorem c1_nav_stack_bound_and_eviction_at_tail_witness :
    (HistoryService.doAddOrReplaceInEditorNavigationStack ctxW nav50tail (fileRef "x") none
        false).stack
      = nav50tail.stack.drop 1 ++ [{ editor := fileRef "x", selection := none }] ∧
    (HistoryService.doAddOrReplaceInEditorNavigationStack ctxW nav50tail (fileRef "x") none
        false).index = 49 ∧
    (HistoryService.doAddOrReplaceInEditorNavigationStack ctxW nav50tail (fileRef "x") none
        false).stack.length = 50 ∧
    (HistoryService.doAddOrReplaceInEditorNavigationStack ctxW nav50tail (fileRef "x") none
        false).lastIndex
      = if nav50tail.lastIndex ≥ 0 then nav50tail.lastIndex - 1 else nav50tail.lastIndex :=
  c1_nav_stack_bound_and_eviction_at_tail.2 ctxW nav50tail (fileRef "x") none (fileRef "x")
    (by decide) (by decide) (by decide) (by decide)

/-- The same 50 entry stack with the cursor at index 0 (reachable by
repeated `back()`) and the recorded jump at the valid index 0. -/
def nav50head : HistoryService.NavStack :=
  { stack := (List.range 50).map (fun k => { editor := fileRef (Nat.repr k), selection := none })
    index := 0
    lastIndex := 0 }

/-- Claim C1 counterexample: on a state with exactly 50 entries whose
cursor is at index 0, a qualifying push does not evict the entry at
index 0 (it survives as the head of the result) and does not decrement
`lastCursor` although 0 was a valid index; branch truncation applies
instead. -/
theorem c1_counterexample :
    nav50head.stack.length = 50 ∧
    HistoryService.doAddOrReplaceReplaceFlag ctxW nav50head (fileRef "x") none false = false ∧
    (HistoryService.doAddOrReplaceInEditorNavigationStack ctxW nav50head (fileRef "x") none
        false).stack
      = [{ editor := fileRef "0", selection := none },
         { editor := fileRef "x", selection := none }] ∧
    (HistoryService.doAddOrReplaceInEditorNavigationStack ctxW nav50head (fileRef "x") none
        false).lastIndex = 0 := by
  decide

/-! ### Claim C4 -/

/-- The three entry stack of the spec scenario, cursor at the tail. -/
def navABC : HistoryService.NavStack :=
  { stack := [entryA, entryB, entryC], index := 2, lastIndex := -1 }

/-- Claim C4: when the cursor is not at the tail, a qualifying push first
discards every entry strictly beyond the cursor and then inserts the new
entry right after the cursor, moving the cursor onto it; in particular from
the stack `[A, B, C]` with the cursor on `C`, `back()` followed by a push
of `D` yields exactly `[A, B, D]` with the cursor on `D`. -/
theorem c4_branch_truncation :
    (∀ (ctx : Ctx) (nav : HistoryService.NavStack) (editor : EditorRef)
        (selection : Option IEditorPaneSelection) (stackEditorInput : EditorRef),
      nav.stack.length ≤ 50 →
      (-1 : Int) ≤ nav.index →
      nav.index + 1 < (nav.stack.length : Int) →
      HistoryService.doAddOrReplaceReplaceFlag ctx nav editor selection false = false →
      HistoryService.preferResourceEditorInput ctx editor = some stackEditorInput →
      (HistoryService.doAddOrReplaceInEditorNavigationStack ctx nav editor selection false).stack
          = nav.stack.take (nav.index + 1).toNat
              ++ [{ editor := stackEditorInput, selection := selection }] ∧
      (HistoryService.doAddOrReplaceInEditorNavigationStack ctx nav editor selection false).index
          = nav.index + 1 ∧
      (HistoryService.doAddOrReplaceInEditorNavigationStack ctx nav editor selection false).lastIndex
          = nav.index) ∧
    ((HistoryService.doAddOrReplaceInEditorNavigationStack ctxW navABC.back (fileRef "d") none
        false).stack = [entryA, entryB, { editor := fileRef "d", selection := none }] ∧
      (HistoryService.doAddOrReplaceInEditorNavigationStack ctxW navABC.back (fileRef "d") none
        false).index = 2) := by
  constructor
  · intro ctx nav editor selection stackEditorInput hlen hlow htail hflag hp
    have hn : ((nav.index + 1).toNat : Int) = nav.index + 1 := Int.toNat_of_nonneg (by omega)
    have hnlt : (nav.index + 1).toNat < nav.stack.length := by omega
    have htt : List.take (nav.index + 1).toNat (List.take (nav.index + 1).toNat nav.stack)
        = List.take (nav.index + 1).toNat nav.stack := by
      rw [List.take_take]
      simp
    have hdt : List.drop (nav.index + 1).toNat (List.take (nav.index + 1).toNat nav.stack)
        = [] := by
      apply List.drop_of_length_le
      rw [List.length_take]
      omega
    have hres : HistoryService.doAddOrReplaceInEditorNavigationStack ctx nav editor selection false
        = { stack := nav.stack.take (nav.index + 1).toNat
              ++ [{ editor := stackEditorInput, selection := selection }]
            index := nav.index + 1
            lastIndex := nav.index } := by
      unfold HistoryService.doAddOrReplaceInEditorNavigationStack
      rw [hp, hflag]
      simp only [Bool.false_eq_true, if_false]
      rw [if_pos htail]
      simp only [listInsertAt, htt, hdt]
      rw [if_neg (by
        simp only [List.length_append, List.length_take, List.length_cons, List.length_nil]
        simp only [HistoryService.MAX_EDITOR_NAVIGATION_STACK_ITEMS]
        omega)]
    exact ⟨by rw [hres], by rw [hres], by rw [hres]⟩
  · decide

/-- Witness for claim C4: the general truncation conclusion applied to the
concrete scenario stack after `back()`. -/
theorem c4_branch_truncation_witness :
    (HistoryService.doAddOrReplaceInEditorNavigationStack ctxW navABC.back (fileRef "d") none
        false).stack
      = navABC.back.stack.take (navABC.back.index + 1).toNat
          ++ [{ editor := fileRef "d", selection := none }] ∧
    (HistoryService.doAddOrReplaceInEditorNavigationStack ctxW navABC.back (fileRef "d") none
        false).index = navABC.back.index + 1 ∧
    (HistoryService.doAddOrReplaceInEditorNavigationStack ctxW navABC.back (fileRef "d") none
        false).lastIndex = navABC.back.index :=
  c4_branch_truncation.1 ctxW navABC.back (fileRef "d") none (fileRef "d")
    (by decide) (by decide) (by decide) (by decide) (by decide)


/-! ### Claim C2 -/

/-- Claim C2: `justifiesNewNavigationEntry` holds exactly for an explicit
navigation reason, differing editor identities, a missing selection
snapshot on either side, or a comparison reporting different selections;
the selection-aware handler takes the push path exactly when there is no
current selection state or the candidate justifies a new entry and the
forced-replace path otherwise, always storing the candidate as the new
current state; and from the initial state, two consecutive selection
events on the same editor leave exactly one stack entry when the
selections compare identical and exactly two when they compare different. -/
theorem c2_push_iff_justified :
    (∀ (ctx : Ctx) (cur cand : EditorSelectionState),
      justifiesNewNavigationEntry ctx cur cand = true ↔
        (cand.reason = some EditorPaneSelectionChangeReason.NAVIGATION ∨
         cur.editor.key ≠ cand.editor.key ∨
         cur.selection = none ∨ cand.selection = none ∨
         ∃ curSel candSel, cur.selection = some curSel ∧ cand.selection = some candSel ∧
           ctx.selCompare candSel curSel = EditorPaneSelectionCompareResult.DIFFERENT)) ∧
    (∀ (ctx : Ctx) (s : HistoryService.NavState) (editor : EditorInput)
        (paneSelection : Option IEditorPaneSelection)
        (reason : Option EditorPaneSelectionChangeReason),
      s.navigatingInEditorStack = false →
      ((s.currentEditorSelectionState = none ∨
          (∃ current, s.currentEditorSelectionState = some current ∧
            justifiesNewNavigationEntry ctx current
              { editor := editor, selection := paneSelection, reason := reason } = true)) →
        (HistoryService.handleSelectionAwareEditorEventInEditorNavigationStack ctx s editor
            paneSelection reason).nav
          = HistoryService.doAddOrReplaceInEditorNavigationStack ctx s.nav (.typed editor)
              paneSelection false) ∧
      ((∀ current, s.currentEditorSelectionState = some current →
          justifiesNewNavigationEntry ctx current
            { editor := editor, selection := paneSelection, reason := reason } = false) →
        s.currentEditorSelectionState ≠ none →
        (HistoryService.handleSelectionAwareEditorEventInEditorNavigationStack ctx s editor
            paneSelection reason).nav
          = HistoryService.doAddOrReplaceInEditorNavigationStack ctx s.nav (.typed editor)
              paneSelection true) ∧
      (HistoryService.handleSelectionAwareEditorEventInEditorNavigationStack ctx s editor
          paneSelection reason).currentEditorSelectionState
        = some { editor := editor, selection := paneSelection, reason := reason }) ∧
    (∀ (ctx : Ctx) (editor : EditorInput) (sel1 sel2 : IEditorPaneSelection)
        (reason1 reason2 : Option EditorPaneSelectionChangeReason)
        (stackEditorInput : EditorRef),
      reason2 ≠ some EditorPaneSelectionChangeReason.NAVIGATION →
      ctx.selCompare sel2 sel1 = EditorPaneSelectionCompareResult.IDENTICAL →
      HistoryService.preferResourceEditorInput ctx (.typed editor) = some stackEditorInput →
      (HistoryService.handleSelectionAwareEditorEventInEditorNavigationStack ctx
          (HistoryService.handleSelectionAwareEditorEventInEditorNavigationStack ctx
            HistoryService.initialNavState editor (some sel1) reason1)
          editor (some sel2) reason2).nav.stack
        = [{ editor := stackEditorInput, selection := some sel2 }]) ∧
    (∀ (ctx : Ctx) (editor : EditorInput) (sel1 sel2 : IEditorPaneSelection)
        (reason1 reason2 : Option EditorPaneSelectionChangeReason)
        (stackEditorInput : EditorRef),
      ctx.selCompare sel2 sel1 = EditorPaneSelectionCompareResult.DIFFERENT →
      ctx.selCompare sel1 sel2 = EditorPaneSelectionCompareResult.DIFFERENT →
      HistoryService.preferResourceEditorInput ctx (.typed editor) = some stackEditorInput →
      (HistoryService.handleSelectionAwareEditorEventInEditorNavigationStack ctx
          (HistoryService.handleSelectionAwareEditorEventInEditorNavigationStack ctx
            HistoryService.initialNavState editor (some sel1) reason1)
          editor (some sel2) reason2).nav.stack
        = [{ editor := stackEditorInput, selection := some sel1 },
           { editor := stackEditorInput, selection := some sel2 }]) := by
  refine ⟨?_, ?_, ?_, ?_⟩
  · intro ctx cur cand
    cases hcs : cur.selection <;> cases hos : cand.selection <;>
      by_cases hr : cand.reason = some EditorPaneSelectionChangeReason.NAVIGATION <;>
      by_cases hk : cur.editor.key = cand.editor.key <;>
      simp [justifiesNewNavigationEntry, EditorInput.matchesInput, hcs, hos, hr, hk]
  · intro ctx s editor paneSelection reason hnav
    cases hc : s.currentEditorSelectionState with
    | none =>
        refine ⟨?_, ?_, ?_⟩
        · intro _
          simp [HistoryService.handleSelectionAwareEditorEventInEditorNavigationStack, hc,
            HistoryService.addToEditorNavigationStack, hnav]
        · intro _ hne
          exact absurd rfl hne
        · simp [HistoryService.handleSelectionAwareEditorEventInEditorNavigationStack, hc]
    | some current =>
        by_cases hj : justifiesNewNavigationEntry ctx current
            { editor := editor, selection := paneSelection, reason := reason } = true
        · refine ⟨?_, ?_, ?_⟩
          · intro _
            simp [HistoryService.handleSelectionAwareEditorEventInEditorNavigationStack, hc, hj,
              HistoryService.addToEditorNavigationStack, hnav]
          · intro hall _
            have := hall current rfl
            rw [hj] at this
            exact absurd this (by simp)
          · simp [HistoryService.handleSelectionAwareEditorEventInEditorNavigationStack, hc]
        · have hj' : justifiesNewNavigationEntry ctx current
              { editor := editor, selection := paneSelection, reason := reason } = false := by
            simpa using hj
          refine ⟨?_, ?_, ?_⟩
          · intro hor
            rcases hor with hnone | ⟨current2, hsome, hjust⟩
            · exact absurd hnone (by simp)
            · injection hsome with hcur
              rw [← hcur] at hjust
              rw [hjust] at hj'
              exact absurd hj' (by simp)
          · intro _ _
            simp [HistoryService.handleSelectionAwareEditorEventInEditorNavigationStack, hc, hj',
              HistoryService.replaceInEditorNavigationStack, hnav]
          · simp [HistoryService.handleSelectionAwareEditorEventInEditorNavigationStack, hc]
  · intro ctx editor sel1 sel2 reason1 reason2 stackEditorInput hr2 hcmp hp
    have h1 : HistoryService.handleSelectionAwareEditorEventInEditorNavigationStack ctx
        HistoryService.initialNavState editor (some sel1) reason1
        = { nav :=
              { stack := [{ editor := stackEditorInput, selection := some sel1 }]
                index := 0
                lastIndex := -1 }
            navigatingInEditorStack := false
            currentEditorSelectionState :=
              some { editor := editor, selection := some sel1, reason := reason1 } } := by
      simp [HistoryService.handleSelectionAwareEditorEventInEditorNavigationStack,
        HistoryService.initialNavState, HistoryService.initialNavStack,
        HistoryService.addToEditorNavigationStack,
        HistoryService.doAddOrReplaceInEditorNavigationStack,
        HistoryService.doAddOrReplaceReplaceFlag, hp, listGetInt, listInsertAt,
        HistoryService.MAX_EDITOR_NAVIGATION_STACK_ITEMS]
    have hjf : justifiesNewNavigationEntry ctx
        { editor := editor, selection := some sel1, reason := reason1 }
        { editor := editor, selection := some sel2, reason := reason2 } = false := by
      simp [justifiesNewNavigationEntry, EditorInput.matchesInput, hr2, hcmp]
    rw [h1]
    simp [HistoryService.handleSelectionAwareEditorEventInEditorNavigationStack, hjf,
      HistoryService.replaceInEditorNavigationStack,
      HistoryService.doAddOrReplaceInEditorNavigationStack,
      HistoryService.doAddOrReplaceReplaceFlag, hp, listGetInt, listSetInt,
      HistoryService.shouldReplaceEditorPaneSelection]
  · intro ctx editor sel1 sel2 reason1 reason2 stackEditorInput hcmp21 hcmp12 hp
    have h1 : HistoryService.handleSelectionAwareEditorEventInEditorNavigationStack ctx
        HistoryService.initialNavState editor (some sel1) reason1
        = { nav :=
              { stack := [{ editor := stackEditorInput, selection := some sel1 }]
                index := 0
                lastIndex := -1 }
            navigatingInEditorStack := false
            currentEditorSelectionState :=
              some { editor := editor, selection := some sel1, reason := reason1 } } := by
      simp [HistoryService.handleSelectionAwareEditorEventInEditorNavigationStack,
        HistoryService.initialNavState, HistoryService.initialNavStack,
        HistoryService.addToEditorNavigationStack,
        HistoryService.doAddOrReplaceInEditorNavigationStack,
        HistoryService.doAddOrReplaceReplaceFlag, hp, listGetInt, listInsertAt,
        HistoryService.MAX_EDITOR_NAVIGATION_STACK_ITEMS]
    have hjt : justifiesNewNavigationEntry ctx
        { editor := editor, selection := some sel1, reason := reason1 }
        { editor := editor, selection := some sel2, reason := reason2 } = true := by
      by_cases hr : reason2 = some EditorPaneSelectionChangeReason.NAVIGATION <;>
        simp [justifiesNewNavigationEntry, EditorInput.matchesInput, hr, hcmp21]
    rw [h1]
    simp [HistoryService.handleSelectionAwareEditorEventInEditorNavigationStack, hjt,
      HistoryService.addToEditorNavigationStack,
      HistoryService.doAddOrReplaceInEditorNavigationStack,
      HistoryService.doAddOrReplaceReplaceFlag, hp, listGetInt, listInsertAt, listSetInt,
      HistoryService.shouldReplaceEditorPaneSelection, hcmp12,
      HistoryService.MAX_EDITOR_NAVIGATION_STACK_ITEMS]

/-- A collaborator record whose selection comparison always reports
identical selections. -/
def ctxIdent : Ctx :=
  { selCompare := fun _ _ => .IDENTICAL
    phaseRestored := false
    hasProvider := fun _ => true
    defaultUriScheme := "file"
    excluded := fun _ => false }

/-- A live editor over `file:e` whose untyped projection is its resource. -/
def liveEditor : EditorInput :=
  { key := 7
    resource := some (fileURI "e")
    untyped := some { resource := fileURI "e" }
    isDisposed := false }

/-- Witness for claim C2: two selection events on `liveEditor` whose
selections compare identical coalesce into the single replaced entry. -/
theorem c2_push_iff_justified_witness :
    (HistoryService.handleSelectionAwareEditorEventInEditorNavigationStack ctxIdent
        (HistoryService.handleSelectionAwareEditorEventInEditorNavigationStack ctxIdent
          HistoryService.initialNavState liveEditor (some { key := 1 }) none)
        liveEditor (some { key := 2 }) (some EditorPaneSelectionChangeReason.USER)).nav.stack
      = [{ editor := .res { resource := fileURI "e" }, selection := some { key := 2 } }] :=
  c2_push_iff_justified.2.2.1 ctxIdent liveEditor { key := 1 } { key := 2 } none
    (some EditorPaneSelectionChangeReason.USER) (.res { resource := fileURI "e" })
    (by decide) rfl (by decide)

/-! ### Claim C5 -/

/-- Unfolding of one history activation for a live, undisposed editor: the
event first removes every entry the identity matcher accepts, then inserts
the converted editor at the front, then drops the tail on overflow past the
200 entry bound. -/
theorem handleEditorEventInHistory_eq (ctx : Ctx) (e : EditorInput)
    (history : List EditorRef) (se : EditorRef)
    (hd : e.isDisposed = false)
    (hp : HistoryService.preferResourceEditorInput ctx (.typed e) = some se) :
    HistoryService.handleEditorEventInHistory ctx e history
      = (if (se :: history.filter
              (fun en => !(HistoryService.matchesEditor ctx (.ref (.typed e)) en))).length
            > HistoryService.MAX_HISTORY_ITEMS
         then (se :: history.filter
              (fun en => !(HistoryService.matchesEditor ctx (.ref (.typed e)) en))).dropLast
         else se :: history.filter
              (fun en => !(HistoryService.matchesEditor ctx (.ref (.typed e)) en))) := by
  simp only [HistoryService.handleEditorEventInHistory, hd, Bool.false_eq_true, if_false,
    HistoryService.removeFromHistory, HistoryService.addToHistory, hp]

/-- The k-th of 201 distinct live editors with no resource projection;
such editors are stored live and deduplicated by handle identity. -/
def plainEditor (k : Nat) : EditorInput :=
  { key := k, resource := none, untyped := none, isDisposed := false }

/-- The history produced by activating 201 distinct editors in order,
starting from the empty history list. -/
def history201 : List EditorRef :=
  (List.range 201).foldl
    (fun h k => HistoryService.handleEditorEventInHistory ctxW (plainEditor k) h) []

set_option maxHeartbeats 8000000 in
/-- Claim C5: a history activation removes every matching entry and inserts
the new entry at the front, dropping the tail on overflow past 200; adding
the same editor twice leaves exactly one entry for it, at the front; and
adding 201 distinct editors to the empty history leaves exactly 200 with
the oldest dropped. -/
theorem c5_history_promotion_dedup_bound :
    (∀ (ctx : Ctx) (e : EditorInput) (history : List EditorRef) (se : EditorRef),
      e.isDisposed = false →
      HistoryService.preferResourceEditorInput ctx (.typed e) = some se →
      HistoryService.handleEditorEventInHistory ctx e history
        = (if (se :: history.filter
                (fun en => !(HistoryService.matchesEditor ctx (.ref (.typed e)) en))).length
              > HistoryService.MAX_HISTORY_ITEMS
           then (se :: history.filter
                (fun en => !(HistoryService.matchesEditor ctx (.ref (.typed e)) en))).dropLast
           else se :: history.filter
                (fun en => !(HistoryService.matchesEditor ctx (.ref (.typed e)) en)))) ∧
    (∀ (ctx : Ctx) (e : EditorInput) (history : List EditorRef) (se : EditorRef),
      e.isDisposed = false →
      HistoryService.preferResourceEditorInput ctx (.typed e) = some se →
      HistoryService.matchesEditor ctx (.ref (.typed e)) se = true →
      (HistoryService.handleEditorEventInHistory ctx e
          (HistoryService.handleEditorEventInHistory ctx e history)).head? = some se ∧
      (HistoryService.handleEditorEventInHistory ctx e
          (HistoryService.handleEditorEventInHistory ctx e history)).countP
        (fun en => HistoryService.matchesEditor ctx (.ref (.typed e)) en) = 1) ∧
    (history201.length = 200 ∧
     history201 = ((List.range 201).drop 1).reverse.map (fun k => .typed (plainEditor k)) ∧
     EditorRef.typed (plainEditor 0) ∉ history201) := by
  refine ⟨?_, ?_, ?_⟩
  · intro ctx e history se hd hp
    exact handleEditorEventInHistory_eq ctx e history se hd hp
  · intro ctx e history se hd hp hm
    have hb2 := handleEditorEventInHistory_eq ctx e
      (HistoryService.handleEditorEventInHistory ctx e history) se hd hp
    rw [hb2]
    generalize hk : (HistoryService.handleEditorEventInHistory ctx e history).filter
      (fun en => !(HistoryService.matchesEditor ctx (.ref (.typed e)) en)) = k2
    have hmem : ∀ x ∈ k2, ¬ (HistoryService.matchesEditor ctx (.ref (.typed e)) x = true) := by
      intro x hx
      rw [← hk] at hx
      have h1 := List.of_mem_filter hx
      simp only [Bool.not_eq_true'] at h1
      simp [h1]
    by_cases hlen : (se :: k2).length > HistoryService.MAX_HISTORY_ITEMS
    · rw [if_pos hlen]
      cases k2 with
      | nil =>
          exfalso
          simp [HistoryService.MAX_HISTORY_ITEMS] at hlen
      | cons a t =>
          constructor
          · simp
          · rw [List.dropLast_cons₂, List.countP_cons]
            have hzero : List.countP
                (fun en => HistoryService.matchesEditor ctx (.ref (.typed e)) en)
                ((a :: t).dropLast) = 0 := by
              rw [List.countP_eq_zero]
              intro x hx
              exact hmem x (List.dropLast_subset _ hx)
            rw [hzero, hm]
            simp
    · rw [if_neg hlen]
      constructor
      · simp
      · rw [List.countP_cons]
        have hzero : List.countP
            (fun en => HistoryService.matchesEditor ctx (.ref (.typed e)) en) k2 = 0 := by
          rw [List.countP_eq_zero]
          exact hmem
        rw [hzero, hm]
        simp
  · refine ⟨?_, ?_, ?_⟩ <;> decide

/-- Witness for claim C5: activating `liveEditor` twice over a one entry
history leaves exactly one entry for it, at the front. -/
theorem c5_history_promotion_dedup_bound_witness :
    (HistoryService.handleEditorEventInHistory ctxW liveEditor
        (HistoryService.handleEditorEventInHistory ctxW liveEditor [fileRef "a"])).head?
      = some (.res { resource := fileURI "e" }) ∧
    (HistoryService.handleEditorEventInHistory ctxW liveEditor
        (HistoryService.handleEditorEventInHistory ctxW liveEditor [fileRef "a"])).countP
      (fun en => HistoryService.matchesEditor ctxW (.ref (.typed liveEditor)) en) = 1 :=
  c5_history_promotion_dedup_bound.2.1 ctxW liveEditor [fileRef "a"]
    (.res { resource := fileURI "e" }) (by decide) (by decide) (by decide)

/-- Witness for claim C7 at the concrete state `sampleServiceState`. -/
theorem c7_clear_resets_stacks_but_keeps_last_edit_location_witness :
    (HistoryService.clear sampleServiceState).nav
        = { stack := [], index := -1, lastIndex := -1 } ∧
    (HistoryService.clear sampleServiceState).history = [] ∧
    (HistoryService.clear sampleServiceState).recentlyClosedEditors = [] ∧
    (HistoryService.clear sampleServiceState).lastEditLocation
        = sampleServiceState.lastEditLocation ∧
    HistoryService.openLastEditLocationTarget (HistoryService.clear sampleServiceState)
        = sampleServiceState.lastEditLocation :=
  c7_clear_resets_stacks_but_keeps_last_edit_location sampleServiceState

/-- Witness for claim C9: removing a delete event that matches nothing in
`navAB` keeps the contents and still resets both cursors. -/
theorem c9_remove_from_editor_navigation_stack_resets_cursor_witness :
    (HistoryService.removeFromEditorNavigationStack ctxW
        (.fileChanges { deleted := [fileURI "z"] }) navAB).1.stack
      = navAB.stack.filter (fun entry =>
          !(HistoryService.matchesEditor ctxW
              (.fileChanges { deleted := [fileURI "z"] }) entry.editor)) ∧
    (HistoryService.removeFromEditorNavigationStack ctxW
        (.fileChanges { deleted := [fileURI "z"] }) navAB).1.index
      = ((HistoryService.removeFromEditorNavigationStack ctxW
          (.fileChanges { deleted := [fileURI "z"] }) navAB).1.stack.length : Int) - 1 ∧
    (HistoryService.removeFromEditorNavigationStack ctxW
        (.fileChanges { deleted := [fileURI "z"] }) navAB).1.lastIndex = -1 :=
  c9_remove_from_editor_navigation_stack_resets_cursor ctxW
    (.fileChanges { deleted := [fileURI "z"] }) navAB
